import Mathlib

/-!
Shallow embedding of the gift-drop bot (src/index.js): storage model,
drop creation, claim arbitration, expiry, scheduler and admin handlers,
with theorems checking the specification's claims against the code.
-/

set_option maxRecDepth 4000

namespace SantaBot

/-! ## Association lists modelling plain JS objects (string keys, insertion order) -/

/-- Lookup of a key in a JS-object-like association list (first match). -/
def lookupKey {α : Type} (k : String) : List (String × α) → Option α
  | [] => none
  | (k', v) :: rest => if k' = k then some v else lookupKey k rest

/-- JS assignment obj[k] = v: overwrite in place when present, else append
(preserving insertion order, as JS objects do). -/
def setKey {α : Type} (k : String) (v : α) : List (String × α) → List (String × α)
  | [] => [(k, v)]
  | (k', v') :: rest => if k' = k then (k, v) :: rest else (k', v') :: setKey k v rest

/-- JS delete obj[k]. -/
def removeKey {α : Type} (k : String) : List (String × α) → List (String × α)
  | [] => []
  | (k', v') :: rest => if k' = k then removeKey k rest else (k', v') :: removeKey k rest

/-- JS Object.values. -/
def valuesOf {α : Type} (m : List (String × α)) : List α := m.map (fun p => p.2)

theorem lookupKey_setKey_self {α : Type} (k : String) (v : α) (l : List (String × α)) :
    lookupKey k (setKey k v l) = some v := by
  induction l with
  | nil => simp [setKey, lookupKey]
  | cons hd tl ih =>
    by_cases h : hd.1 = k
    · simp [setKey, lookupKey, h]
    · simp [setKey, lookupKey, h, ih]

theorem lookupKey_setKey_other {α : Type} (k k' : String) (v : α) (l : List (String × α))
    (h : k' ≠ k) : lookupKey k (setKey k' v l) = lookupKey k l := by
  induction l with
  | nil => simp [setKey, lookupKey, h]
  | cons hd tl ih =>
    by_cases h2 : hd.1 = k'
    · simp [setKey, lookupKey, h2, h]
    · simp [setKey, lookupKey, h2, ih]

theorem lookupKey_removeKey_self {α : Type} (k : String) (l : List (String × α)) :
    lookupKey k (removeKey k l) = none := by
  induction l with
  | nil => simp [removeKey, lookupKey]
  | cons hd tl ih =>
    by_cases h : hd.1 = k
    · simp [removeKey, h, ih]
    · simp [removeKey, lookupKey, h, ih]

theorem lookupKey_removeKey_other {α : Type} (k k' : String) (l : List (String × α))
    (h : k' ≠ k) : lookupKey k (removeKey k' l) = lookupKey k l := by
  induction l with
  | nil => simp [removeKey, lookupKey]
  | cons hd tl ih =>
    by_cases h2 : hd.1 = k'
    · subst h2
      simp [removeKey, lookupKey, ih, h]
    · simp [removeKey, lookupKey, h2, ih]

theorem lookupKey_mem_values {α : Type} (k : String) (v : α) (l : List (String × α))
    (h : lookupKey k l = some v) : v ∈ valuesOf l := by
  induction l with
  | nil => simp [lookupKey] at h
  | cons hd tl ih =>
    by_cases h2 : hd.1 = k
    · simp [lookupKey, h2] at h
      simp [valuesOf, h]
    · simp [lookupKey, h2] at h
      simp [valuesOf]
      exact Or.inr (by simpa [valuesOf] using ih h)

/-! ## Data model (mirrors the shapes stored in storage.json by src/index.js) -/

/-- An active drop, as stored in storage.activeDrops by sendGiftDrop. -/
structure Drop where
  createdAt : Nat
  expiresAt : Nat
  validBoxes : List String
  collectedBy : List (String × String)
  messageId : Option String := none
  channelId : Option String := none
deriving Repr, DecidableEq

/-- The storage.botSettings shape. -/
structure BotSettings where
  autoDropEnabled : Bool
  dropChannelId : Option String
deriving Repr, DecidableEq

/-- The whole durable storage document. botSettings is Option because the
loadStorage code path can leave it null (see loadStorage below). -/
structure Storage where
  userCounts : List (String × Nat)
  activeDrops : List (String × Drop)
  botSettings : Option BotSettings
deriving Repr, DecidableEq

/-- The initial in-memory storage value at module load, parametrised by the
optional DROP_CHANNEL_ID environment value. -/
def initialStorage (envDropChannelId : Option String) : Storage :=
  { userCounts := []
    activeDrops := []
    botSettings := some { autoDropEnabled := envDropChannelId.isSome
                          dropChannelId := envDropChannelId } }

/-- DROP_EXPIRE_HOURS from the config block. -/
def DROP_EXPIRE_HOURS : Nat := 48

/-- DROP_MESSAGE_LIFETIME_MS from the config block. -/
def DROP_MESSAGE_LIFETIME_MS : Nat := 10 * 1000

/-! ## Drop id generation (makeDropId) and decimal-representation facts -/

/-- makeDropId from the helpers block: a template literal gluing the current
millisecond timestamp t and the floored random draw r (the value of
Math.floor of Math.random times 10000, so r ranges over 0..9999). -/
def makeDropId (t r : Nat) : String :=
  "drop_" ++ Nat.repr t ++ "_" ++ Nat.repr r

theorem toDigitsCore_eq_digits (n : Nat) : ∀ (fuel : Nat) (acc : List Char), 0 < n → n < fuel →
    Nat.toDigitsCore 10 fuel n acc = ((Nat.digits 10 n).map Nat.digitChar).reverse ++ acc := by
  induction n using Nat.strong_induction_on with
  | _ n ih =>
    intro fuel acc hn hfuel
    match fuel with
    | 0 => omega
    | f + 1 =>
      rw [Nat.digits_def' (by norm_num : (1 : Nat) < 10) hn]
      by_cases hdiv : n / 10 = 0
      · simp [Nat.toDigitsCore, hdiv]
      · have h1 : n / 10 < n := Nat.div_lt_self hn (by norm_num)
        have h2 : 0 < n / 10 := Nat.pos_of_ne_zero hdiv
        have h3 : n / 10 < f := by omega
        simp only [Nat.toDigitsCore, hdiv, if_false]
        rw [ih (n / 10) h1 f (Nat.digitChar (n % 10) :: acc) h2 h3]
        simp

theorem repr_data (n : Nat) :
    (Nat.repr n).data =
      if n = 0 then ['0'] else ((Nat.digits 10 n).map Nat.digitChar).reverse := by
  by_cases h : n = 0
  · subst h; rfl
  · rw [if_neg h]
    show (Nat.toDigits 10 n).asString.data = _
    unfold Nat.toDigits
    rw [toDigitsCore_eq_digits n (n + 1) [] (Nat.pos_of_ne_zero h) (Nat.lt_succ_self n)]
    simp [List.asString]

theorem digitChar_injOn : ∀ a, a < 10 → ∀ b, b < 10 →
    Nat.digitChar a = Nat.digitChar b → a = b := by decide

theorem digitChar_ne_underscore : ∀ d, d < 10 → Nat.digitChar d ≠ '_' := by decide

theorem map_digitChar_inj : ∀ (l1 l2 : List Nat), (∀ x ∈ l1, x < 10) → (∀ x ∈ l2, x < 10) →
    l1.map Nat.digitChar = l2.map Nat.digitChar → l1 = l2
  | [], [], _, _, _ => rfl
  | [], _ :: _, _, _, h => by simp at h
  | _ :: _, [], _, _, h => by simp at h
  | a :: l1, b :: l2, h1, h2, h => by
    simp only [List.map_cons, List.cons.injEq] at h
    have hab : a = b := digitChar_injOn a (h1 a (by simp)) b (h2 b (by simp)) h.1
    have rest : l1 = l2 :=
      map_digitChar_inj l1 l2 (fun x hx => h1 x (by simp [hx])) (fun x hx => h2 x (by simp [hx])) h.2
    rw [hab, rest]

theorem digits_map_eq_zero_char (b : Nat)
    (h : (Nat.digits 10 b).map Nat.digitChar = ['0']) : b = 0 := by
  cases hd : Nat.digits 10 b with
  | nil => exact (Nat.digits_eq_nil_iff_eq_zero.mp hd)
  | cons d tl =>
    rw [hd] at h
    simp only [List.map_cons, List.cons.injEq] at h
    have hdlt : d < 10 :=
      Nat.digits_lt_base (by norm_num) (by rw [hd]; exact List.mem_cons_self d tl)
    have hd0 : d = 0 := digitChar_injOn d hdlt 0 (by norm_num) h.1
    have htl : tl = [] := by
      cases tl with
      | nil => rfl
      | cons x xs => simp at h
    have : Nat.digits 10 b = [0] := by rw [hd, hd0, htl]
    have hb := Nat.ofDigits_digits 10 b
    rw [this] at hb
    simpa [Nat.ofDigits] using hb.symm

theorem repr_data_injective (a b : Nat) (h : (Nat.repr a).data = (Nat.repr b).data) : a = b := by
  rw [repr_data, repr_data] at h
  by_cases ha : a = 0 <;> by_cases hb : b = 0
  · omega
  · rw [if_pos ha, if_neg hb] at h
    have : (Nat.digits 10 b).map Nat.digitChar = ['0'] := by
      have := congrArg List.reverse h
      simpa using this.symm
    exact absurd (digits_map_eq_zero_char b this) hb
  · rw [if_neg ha, if_pos hb] at h
    have : (Nat.digits 10 a).map Nat.digitChar = ['0'] := by
      have := congrArg List.reverse h
      simpa using this
    exact absurd (digits_map_eq_zero_char a this) ha
  · rw [if_neg ha, if_neg hb] at h
    have hmap : (Nat.digits 10 a).map Nat.digitChar = (Nat.digits 10 b).map Nat.digitChar :=
      List.reverse_injective h
    have hdig : Nat.digits 10 a = Nat.digits 10 b :=
      map_digitChar_inj _ _ (fun _ hx => Nat.digits_lt_base (by norm_num) hx)
        (fun _ hx => Nat.digits_lt_base (by norm_num) hx) hmap
    have := congrArg (Nat.ofDigits 10) hdig
    rwa [Nat.ofDigits_digits, Nat.ofDigits_digits] at this

theorem underscore_not_mem_repr (n : Nat) : '_' ∉ (Nat.repr n).data := by
  rw [repr_data]
  by_cases h : n = 0
  · simp [h]
  · rw [if_neg h]
    intro hmem
    rw [List.mem_reverse] at hmem
    obtain ⟨d, hd, hdc⟩ := List.mem_map.mp hmem
    exact digitChar_ne_underscore d (Nat.digits_lt_base (by norm_num) hd) hdc

theorem append_underscore_inj : ∀ (a c b d : List Char), '_' ∉ a → '_' ∉ c →
    a ++ '_' :: b = c ++ '_' :: d → a = c ∧ b = d
  | [], [], b, d, _, _, h => by simpa using h
  | [], ch :: ct, b, d, _, hc, h => by
    simp only [List.nil_append, List.cons_append, List.cons.injEq] at h
    exact absurd (h.1.symm ▸ List.mem_cons_self ch ct) (h.1 ▸ hc)
  | ah :: as', [], b, d, ha, _, h => by
    simp only [List.nil_append, List.cons_append, List.cons.injEq] at h
    exact absurd (List.mem_cons_self ah as') (h.1 ▸ ha)
  | ah :: as', ch :: ct, b, d, ha, hc, h => by
    simp only [List.cons_append, List.cons.injEq] at h
    have ha' : '_' ∉ as' := fun hx => ha (List.mem_cons_of_mem ah hx)
    have hc' : '_' ∉ ct := fun hx => hc (List.mem_cons_of_mem ch hx)
    obtain ⟨h1, h2⟩ := append_underscore_inj as' ct b d ha' hc' h.2
    exact ⟨by rw [h.1, h1], h2⟩

/-- Injectivity of makeDropId in the pair (timestamp, floored random draw):
two generated ids coincide exactly when both the millisecond and the draw
coincide. -/
theorem makeDropId_inj (t1 r1 t2 r2 : Nat) (h : makeDropId t1 r1 = makeDropId t2 r2) :
    t1 = t2 ∧ r1 = r2 := by
  have hd : (makeDropId t1 r1).data = (makeDropId t2 r2).data := by rw [h]
  simp only [makeDropId, String.data_append] at hd
  simp only [List.append_assoc, List.cons_append, List.nil_append, List.singleton_append,
    List.cons.injEq, true_and] at hd
  obtain ⟨hT, hR⟩ := append_underscore_inj _ _ _ _ (underscore_not_mem_repr t1)
    (underscore_not_mem_repr t2) hd
  exact ⟨repr_data_injective _ _ hT, repr_data_injective _ _ hR⟩

/-! ## Winning-slot selection (the in-place shuffle in sendGiftDrop) -/

/-- One swap of the in-place shuffle loop: the destructuring assignment
swapping positions i and j of the index array. -/
def swapAt' (l : List Nat) (i j : Nat) : List Nat :=
  match l.get? i, l.get? j with
  | some a, some b => (l.set i b).set j a
  | _, _ => l

/-- The shuffle loop of sendGiftDrop on the array 0,1,2,3: iterations
i = 3, 2, 1 with random draws j3, j2, j1 (each ji is the floor of
Math.random times i plus 1, hence ranges over 0..i). -/
def shuffledSlots (j3 j2 j1 : Nat) : List Nat :=
  swapAt' (swapAt' (swapAt' [0, 1, 2, 3] 3 j3) 2 j2) 1 j1

/-- realIndices in sendGiftDrop: the first two entries of the shuffled array. -/
def realIndicesOf (j3 j2 j1 : Nat) : List Nat := (shuffledSlots j3 j2 j1).take 2

/-- boxKey i is the string key box_i used both in validBoxes and in collectedBy. -/
def boxKey (i : Nat) : String := "box_" ++ Nat.repr i

/-! ## Drop creation (sendGiftDrop) -/

/-- Externally visible effects of one sendGiftDrop run, in program order. -/
inductive DropEvent where
  | registerInMemory (dropId : String)
  | renderShown (dropId : String)
  | persist
  | armVisibilityTimer (delayMs : Nat)
  | armValidityTimer (delayMs : Nat)
deriving DecidableEq, Repr

/-- The drop record first stored into storage.activeDrops by sendGiftDrop. -/
def newDropRecord (now j3 j2 j1 : Nat) : Drop :=
  { createdAt := now
    expiresAt := now + DROP_EXPIRE_HOURS * 60 * 60 * 1000
    validBoxes := (realIndicesOf j3 j2 j1).map boxKey
    collectedBy := [] }

/-- sendGiftDrop: registers the new drop in memory, sends the message
(renderShown), stores the message reference, then calls saveStorage, and
arms the two cleanup timers. Returns (memory, disk, event trace); msgId and
chId stand for the platform identifiers of the sent message. -/
def sendGiftDrop (now j3 j2 j1 t r : Nat) (msgId chId : String) (st _disk : Storage) :
    Storage × Storage × List DropEvent :=
  let dropId := makeDropId t r
  let drop0 := newDropRecord now j3 j2 j1
  let st1 := { st with activeDrops := setKey dropId drop0 st.activeDrops }
  let drop1 := { drop0 with messageId := some msgId, channelId := some chId }
  let st2 := { st1 with activeDrops := setKey dropId drop1 st1.activeDrops }
  let disk1 := st2
  (st2, disk1,
    [DropEvent.registerInMemory dropId, DropEvent.renderShown dropId, DropEvent.persist,
     DropEvent.armVisibilityTimer DROP_MESSAGE_LIFETIME_MS,
     DropEvent.armValidityTimer (drop0.expiresAt - now)])

/-- Recognizer for renderShown events. -/
def isRenderShown : DropEvent → Bool
  | DropEvent.renderShown _ => true
  | _ => false

/-- Recognizer for persist events. -/
def isPersist : DropEvent → Bool
  | DropEvent.persist => true
  | _ => false

/-- The c5 property as the spec states it, over an effect trace: no
rendering is shown before the drop has been persisted, i.e. every event
strictly before the first persist is not a renderShown. -/
def noRenderBeforePersist (tr : List DropEvent) : Prop :=
  ∀ e ∈ tr.takeWhile (fun e => !(isPersist e)), isRenderShown e = false

instance (tr : List DropEvent) : Decidable (noRenderBeforePersist tr) :=
  List.decidableBAll _ _

/-- The visibility-timer callback of sendGiftDrop restricted to its durable
effect: if the drop is still active, delete it and save. -/
def visibilityCleanup (dropId : String) (st : Storage) : Storage × Storage :=
  match lookupKey dropId st.activeDrops with
  | some _ =>
    let st' := { st with activeDrops := removeKey dropId st.activeDrops }
    (st', st')
  | none => (st, st)

/-- The validity-timer (safety expiry) callback of sendGiftDrop: same
durable effect as the visibility cleanup. -/
def validityCleanup (dropId : String) (st : Storage) : Storage × Storage :=
  visibilityCleanup dropId st

/-! ## Claim arbitration (the collect-button branch of interactionCreate) -/

inductive ClaimOutcome where
  | DropNotFound
  | DropExpired
  | SlotAlreadyClaimed
  | MemberAlreadyClaimed
  | Prize
  | Trollbox
deriving DecidableEq, Repr

/-- JS truthiness of the lookup drop.collectedBy of boxId: present and a
nonempty string. -/
def truthyStr : Option String → Bool
  | none => false
  | some s => !s.isEmpty

/-- The collect-button handler, restricted to its durable effects: takes the
current time, the parsed (dropId, boxIndex) from the button custom id, the
acting member id, the in-memory storage and the last saved snapshot; returns
the outcome together with the new memory and disk states. Mirrors the source
branch by branch (existence, expiry with delete-and-save, slot taken,
member already claimed, record-and-save, then prize classification; the
tally increment for a real box is not followed by a save in the source). -/
def handleCollect (now : Nat) (dropId : String) (boxIndex : Nat) (memberId : String)
    (st disk : Storage) : ClaimOutcome × Storage × Storage :=
  let boxId := boxKey boxIndex
  match lookupKey dropId st.activeDrops with
  | none => (ClaimOutcome.DropNotFound, st, disk)
  | some drop =>
    if drop.expiresAt < now then
      let st' := { st with activeDrops := removeKey dropId st.activeDrops }
      (ClaimOutcome.DropExpired, st', st')
    else if truthyStr (lookupKey boxId drop.collectedBy) then
      (ClaimOutcome.SlotAlreadyClaimed, st, disk)
    else if memberId ∈ valuesOf drop.collectedBy then
      (ClaimOutcome.MemberAlreadyClaimed, st, disk)
    else
      let drop' := { drop with collectedBy := setKey boxId memberId drop.collectedBy }
      let st1 := { st with activeDrops := setKey dropId drop' st.activeDrops }
      let disk1 := st1
      if boxId ∈ drop.validBoxes then
        let st2 := { st1 with
          userCounts := setKey memberId ((lookupKey memberId st1.userCounts).getD 0 + 1)
            st1.userCounts }
        (ClaimOutcome.Prize, st2, disk1)
      else
        (ClaimOutcome.Trollbox, st1, disk1)

/-- A batch of claim attempts (now, dropId, boxIndex, memberId) applied in
order to a (memory, disk) pair. -/
def applyClaims (ops : List (Nat × String × Nat × String)) (sd : Storage × Storage) :
    Storage × Storage :=
  ops.foldl
    (fun sd op =>
      let r := handleCollect op.1 op.2.1 op.2.2.1 op.2.2.2 sd.1 sd.2
      (r.2.1, r.2.2))
    sd

/-! ## Storage load (loadStorage) -/

/-- A parsed storage.json document: each top-level field is either absent
(outer none), explicitly null (some none), or a value. -/
structure ParsedDoc where
  userCounts : Option (Option (List (String × Nat)))
  activeDrops : Option (Option (List (String × Drop)))
  botSettings : Option (Option BotSettings)
deriving Repr

/-- What loadStorage finds on disk. -/
inductive LoadInput where
  | missingFile
  | unreadable
  | parsed (doc : ParsedDoc)

/-- Value of one storage field after Object.assign of the parsed document
onto the current storage: a field present in the document (even null)
overwrites, an absent field keeps the current value. -/
def assignField {α : Type} (cur : α) : Option (Option α) → Option α
  | none => some cur
  | some v => v

/-- loadStorage: missing file and parse failure keep the in-memory defaults
(and save them); on success the parsed fields are assigned over the current
storage, then userCounts and activeDrops are defaulted when falsy, while the
botSettings line of the source is a self-assignment and defaults nothing. -/
def loadStorage (init : Storage) : LoadInput → Storage
  | LoadInput.missingFile => init
  | LoadInput.unreadable => init
  | LoadInput.parsed doc =>
    { userCounts := (assignField init.userCounts doc.userCounts).getD []
      activeDrops := (assignField init.activeDrops doc.activeDrops).getD []
      botSettings :=
        match doc.botSettings with
        | none => init.botSettings
        | some v => v }

/-! ## Scheduler (scheduleNextDrop) -/

/-- randInt from the helpers block, with the uniform real draw discretised:
k models the floor of Math.random times (mx - mn + 1), so k ranges over
0..(mx - mn); the modulus makes the embedding total over all Nat seeds. -/
def randInt (mn mx k : Nat) : Nat := k % (mx - mn + 1) + mn

/-- The freshly sampled delay in minutes for one scheduler cycle. -/
def nextDropDelayMinutes (k : Nat) : Nat := randInt 5 10 k

/-- The delay passed to setTimeout, in milliseconds. -/
def nextDropDelayMs (k : Nat) : Nat := nextDropDelayMinutes k * 60 * 1000

inductive SchedEvent where
  | logAutoDropError (e : String)
  | rearm (delayMs : Nat)
deriving DecidableEq, Repr

/-- Recognizer for rearm events. -/
def isRearm : SchedEvent → Bool
  | SchedEvent.rearm _ => true
  | _ => false

/-- One firing of the scheduleNextDrop timer: the try body either completes
or throws (logged in the catch), and the finally block re-arms with a delay
freshly sampled from the next seed k. -/
def schedulerCycle (body : Except String Unit) (k : Nat) : List SchedEvent :=
  (match body with
   | Except.ok _ => []
   | Except.error e => [SchedEvent.logAutoDropError e]) ++
  [SchedEvent.rearm (nextDropDelayMs k)]

/-! ## Admin command handlers (set_drop_channel, toggle_auto, ready) -/

inductive AdminEvent where
  | persist
  | replySent
  | armScheduler
deriving DecidableEq, Repr

/-- The set_drop_channel branch of interactionCreate: ensure botSettings is
an object, set the channel, enable auto drops, save, reply. It never touches
the scheduler. -/
def setDropChannelHandler (chId : String) (st : Storage) : Storage × List AdminEvent :=
  let bs := st.botSettings.getD { autoDropEnabled := false, dropChannelId := none }
  let bs' := { bs with dropChannelId := some chId, autoDropEnabled := true }
  ({ st with botSettings := some bs' }, [AdminEvent.persist, AdminEvent.replySent])

/-- The toggle_auto branch of interactionCreate: flip the flag, save, reply.
It never touches the scheduler. -/
def toggleAutoHandler (st : Storage) : Storage × List AdminEvent :=
  let bs := st.botSettings.getD { autoDropEnabled := false, dropChannelId := none }
  let bs' := { bs with autoDropEnabled := !bs.autoDropEnabled }
  ({ st with botSettings := some bs' }, [AdminEvent.persist, AdminEvent.replySent])

/-- The ready handler: the only place scheduleNextDrop is first armed — and
only when auto drops are enabled and a channel is configured at startup. -/
def readyHandlerEvents (st : Storage) : List AdminEvent :=
  match st.botSettings with
  | some bs =>
    if bs.autoDropEnabled && bs.dropChannelId.isSome then [AdminEvent.armScheduler] else []
  | none => []

/-! ## Concrete sample states used by witnesses and counterexamples -/

/-- A fresh drop d1 whose winning boxes are box_0 and box_1. -/
def dropA : Drop :=
  { createdAt := 0, expiresAt := 1000, validBoxes := [boxKey 0, boxKey 1], collectedBy := [] }

/-- The same drop after member A has claimed box_0. -/
def dropB : Drop := { dropA with collectedBy := [(boxKey 0, "A")] }

/-- Storage holding the fresh drop d1. -/
def stA : Storage := { userCounts := [], activeDrops := [("d1", dropA)], botSettings := none }

/-- Storage holding d1 with one existing claim. -/
def stB : Storage := { userCounts := [], activeDrops := [("d1", dropB)], botSettings := none }

/-- Empty storage. -/
def stEmpty : Storage := initialStorage none

/-- Storage with auto drops disabled and no channel configured. -/
def stDisabled : Storage :=
  { userCounts := [], activeDrops := []
    botSettings := some { autoDropEnabled := false, dropChannelId := none } }

/-! ## Helper lemmas about handleCollect -/

theorem handleCollect_preserves_absent (now : Nat) (d d' : String) (i : Nat) (m : String)
    (st disk : Storage) (h : lookupKey d st.activeDrops = none) :
    lookupKey d ((handleCollect now d' i m st disk).2.1).activeDrops = none := by
  by_cases he : d' = d
  · subst he
    simp [handleCollect, h]
  · unfold handleCollect
    cases hl : lookupKey d' st.activeDrops with
    | none => simpa using h
    | some drop =>
      by_cases hexp : drop.expiresAt < now
      · simpa [hexp] using (lookupKey_removeKey_other d d' st.activeDrops he).trans h
      · by_cases ht : truthyStr (lookupKey (boxKey i) drop.collectedBy)
        · simpa [hexp, ht] using h
        · by_cases hm : m ∈ valuesOf drop.collectedBy
          · simpa [hexp, ht, hm] using h
          · by_cases hr : boxKey i ∈ drop.validBoxes
            · simpa [hexp, ht, hm, hr] using
                (lookupKey_setKey_other d d' _ st.activeDrops he).trans h
            · simpa [hexp, ht, hm, hr] using
                (lookupKey_setKey_other d d' _ st.activeDrops he).trans h

theorem applyClaims_cons (op : Nat × String × Nat × String)
    (ops : List (Nat × String × Nat × String)) (sd : Storage × Storage) :
    applyClaims (op :: ops) sd =
      applyClaims ops
        ((handleCollect op.1 op.2.1 op.2.2.1 op.2.2.2 sd.1 sd.2).2.1,
         (handleCollect op.1 op.2.1 op.2.2.1 op.2.2.2 sd.1 sd.2).2.2) := rfl

theorem applyClaims_preserves_absent (d : String) :
    ∀ (ops : List (Nat × String × Nat × String)) (st disk : Storage),
      lookupKey d st.activeDrops = none →
      lookupKey d (applyClaims ops (st, disk)).1.activeDrops = none
  | [], st, _, h => h
  | op :: ops, st, disk, h => by
    rw [applyClaims_cons]
    exact applyClaims_preserves_absent d ops _ _
      (handleCollect_preserves_absent op.1 d op.2.1 op.2.2.1 op.2.2.2 st disk h)

/-! ## Claim theorems -/

/-- C1: a claim attempt evaluates its failure checks in short-circuit order:
an unknown dropId gives DropNotFound; else a strictly-past expiresAt gives
DropExpired; else a slot already present in the claims map gives
SlotAlreadyClaimed; else a claimant already appearing among the claimed
values (of any slot) gives MemberAlreadyClaimed; only otherwise is
claims of slotIndex set to the claimant. Recorded claimant ids are Discord
ids, hence nonempty (the hwf hypothesis). -/
theorem claim_outcome_order (now : Nat) (dropId : String) (i : Nat) (m : String)
    (st disk : Storage)
    (hwf : ∀ d ∈ valuesOf st.activeDrops, ∀ v ∈ valuesOf d.collectedBy, v.isEmpty = false) :
    (lookupKey dropId st.activeDrops = none →
      (handleCollect now dropId i m st disk).1 = ClaimOutcome.DropNotFound) ∧
    (∀ drop, lookupKey dropId st.activeDrops = some drop →
      (drop.expiresAt < now →
        (handleCollect now dropId i m st disk).1 = ClaimOutcome.DropExpired) ∧
      (¬drop.expiresAt < now → lookupKey (boxKey i) drop.collectedBy ≠ none →
        (handleCollect now dropId i m st disk).1 = ClaimOutcome.SlotAlreadyClaimed) ∧
      (¬drop.expiresAt < now → lookupKey (boxKey i) drop.collectedBy = none →
        m ∈ valuesOf drop.collectedBy →
        (handleCollect now dropId i m st disk).1 = ClaimOutcome.MemberAlreadyClaimed) ∧
      (¬drop.expiresAt < now → lookupKey (boxKey i) drop.collectedBy = none →
        m ∉ valuesOf drop.collectedBy →
        ∃ drop', lookupKey dropId ((handleCollect now dropId i m st disk).2.1).activeDrops =
            some drop' ∧ lookupKey (boxKey i) drop'.collectedBy = some m)) := by
  constructor
  · intro h
    simp [handleCollect, h]
  · intro drop hdrop
    refine ⟨?_, ?_, ?_, ?_⟩
    · intro hexp
      simp [handleCollect, hdrop, hexp]
    · intro hexp hkey
      obtain ⟨v, hv⟩ := Option.ne_none_iff_exists'.mp hkey
      have hvne : v.isEmpty = false :=
        hwf drop (lookupKey_mem_values _ _ _ hdrop) v (lookupKey_mem_values _ _ _ hv)
      have htruthy : truthyStr (lookupKey (boxKey i) drop.collectedBy) = true := by
        rw [hv]
        simp [truthyStr, hvne]
      simp [handleCollect, hdrop, hexp, htruthy]
    · intro hexp hkey hmem
      have hfalse : truthyStr (lookupKey (boxKey i) drop.collectedBy) = false := by
        rw [hkey]; rfl
      simp [handleCollect, hdrop, hexp, hfalse, hmem]
    · intro hexp hkey hmem
      have hfalse : truthyStr (lookupKey (boxKey i) drop.collectedBy) = false := by
        rw [hkey]; rfl
      refine ⟨{ drop with collectedBy := setKey (boxKey i) m drop.collectedBy }, ?_,
        lookupKey_setKey_self _ _ _⟩
      by_cases hreal : boxKey i ∈ drop.validBoxes <;>
        simp [handleCollect, hdrop, hexp, hfalse, hmem, hreal, lookupKey_setKey_self]

/-- Witness for claim_outcome_order: on a drop whose box_0 is already
claimed by A, member B claiming box_0 gets SlotAlreadyClaimed. -/
theorem claim_outcome_order_witness :
    (handleCollect 50 "d1" 0 "B" stB stB).1 = ClaimOutcome.SlotAlreadyClaimed :=
  (((claim_outcome_order 50 "d1" 0 "B" stB stB (by decide)).2 dropB (by decide)).2.1)
    (by decide) (by decide)

/-- C10: a claim attempt answering DropNotFound, SlotAlreadyClaimed or
MemberAlreadyClaimed leaves both the in-memory storage and the durable
snapshot exactly as they were. -/
theorem failed_claim_state_unchanged (now : Nat) (dropId : String) (i : Nat) (m : String)
    (st disk : Storage)
    (h : (handleCollect now dropId i m st disk).1 = ClaimOutcome.DropNotFound ∨
         (handleCollect now dropId i m st disk).1 = ClaimOutcome.SlotAlreadyClaimed ∨
         (handleCollect now dropId i m st disk).1 = ClaimOutcome.MemberAlreadyClaimed) :
    (handleCollect now dropId i m st disk).2.1 = st ∧
    (handleCollect now dropId i m st disk).2.2 = disk := by
  unfold handleCollect at h ⊢
  cases hl : lookupKey dropId st.activeDrops with
  | none => simp [hl]
  | some drop =>
    rw [hl] at h
    by_cases hexp : drop.expiresAt < now
    · simp [hexp] at h
    · by_cases ht : truthyStr (lookupKey (boxKey i) drop.collectedBy)
      · simp [hl, hexp, ht]
      · by_cases hm : m ∈ valuesOf drop.collectedBy
        · simp [hl, hexp, ht, hm]
        · by_cases hr : boxKey i ∈ drop.validBoxes <;> simp [hexp, ht, hm, hr] at h

/-- Witness for failed_claim_state_unchanged: a claim against empty storage
is DropNotFound and changes nothing. -/
theorem failed_claim_state_unchanged_witness :
    (handleCollect 0 "nope" 0 "A" stEmpty stEmpty).2.1 = stEmpty ∧
    (handleCollect 0 "nope" 0 "A" stEmpty stEmpty).2.2 = stEmpty :=
  failed_claim_state_unchanged 0 "nope" 0 "A" stEmpty stEmpty (Or.inl (by decide))

/-- C4: once a drop id is absent from the active set, any claim against it
answers DropNotFound and changes nothing; no sequence of claim attempts can
re-introduce the id; a claim arriving strictly after expiresAt removes the
drop (in memory and on disk) and answers DropExpired; and either cleanup
timer removes the drop from the active set. -/
theorem removed_drop_never_claims (now : Nat) (dropId : String) (i : Nat) (m : String)
    (st disk : Storage) :
    (lookupKey dropId st.activeDrops = none →
      (handleCollect now dropId i m st disk).1 = ClaimOutcome.DropNotFound ∧
      (handleCollect now dropId i m st disk).2.1 = st ∧
      (handleCollect now dropId i m st disk).2.2 = disk) ∧
    (∀ ops : List (Nat × String × Nat × String), lookupKey dropId st.activeDrops = none →
      lookupKey dropId (applyClaims ops (st, disk)).1.activeDrops = none) ∧
    (∀ drop, lookupKey dropId st.activeDrops = some drop → drop.expiresAt < now →
      (handleCollect now dropId i m st disk).1 = ClaimOutcome.DropExpired ∧
      lookupKey dropId ((handleCollect now dropId i m st disk).2.1).activeDrops = none ∧
      lookupKey dropId ((handleCollect now dropId i m st disk).2.2).activeDrops = none) ∧
    lookupKey dropId (visibilityCleanup dropId st).1.activeDrops = none ∧
    lookupKey dropId (validityCleanup dropId st).1.activeDrops = none := by
  refine ⟨?_, ?_, ?_, ?_, ?_⟩
  · intro h
    simp [handleCollect, h]
  · intro ops h
    exact applyClaims_preserves_absent dropId ops st disk h
  · intro drop hdrop hexp
    simp [handleCollect, hdrop, hexp, lookupKey_removeKey_self]
  · unfold visibilityCleanup
    cases hl : lookupKey dropId st.activeDrops with
    | none => simpa using hl
    | some drop => simp [lookupKey_removeKey_self]
  · unfold validityCleanup visibilityCleanup
    cases hl : lookupKey dropId st.activeDrops with
    | none => simpa using hl
    | some drop => simp [lookupKey_removeKey_self]

/-- Witness for removed_drop_never_claims: claiming the expired drop d1 at
time 2000 answers DropExpired and leaves d1 absent from the active set. -/
theorem removed_drop_never_claims_witness :
    (handleCollect 2000 "d1" 0 "A" stA stA).1 = ClaimOutcome.DropExpired ∧
    lookupKey "d1" ((handleCollect 2000 "d1" 0 "A" stA stA).2.1).activeDrops = none ∧
    lookupKey "d1" ((handleCollect 2000 "d1" 0 "A" stA stA).2.2).activeDrops = none :=
  (removed_drop_never_claims 2000 "d1" 0 "A" stA stA).2.2.1 dropA (by decide) (by decide)

/-- C2: for every admissible triple of shuffle draws, the winning slots are
exactly two distinct indices among 0..3; and the shuffle-then-take-2 scheme
reaches every ordered pair of distinct indices (hence all 6 unordered
pairs), unlike independent per-slot coin flips. -/
theorem winning_slots_spec (j3 : Nat) (h3 : j3 < 4) (j2 : Nat) (h2 : j2 < 3)
    (j1 : Nat) (h1 : j1 < 2) :
    ((realIndicesOf j3 j2 j1).length = 2 ∧ (realIndicesOf j3 j2 j1).Nodup ∧
      ∀ x ∈ realIndicesOf j3 j2 j1, x < 4) ∧
    (∀ a b : Fin 4, a ≠ b → ∃ k3 : Fin 4, ∃ k2 : Fin 3, ∃ k1 : Fin 2,
      realIndicesOf k3.val k2.val k1.val = [a.val, b.val]) := by
  constructor
  · revert h1
    revert j1
    revert h2
    revert j2
    revert h3
    revert j3
    decide
  · decide

/-- Witness for winning_slots_spec at draws 0, 0, 0. -/
theorem winning_slots_spec_witness :
    ((realIndicesOf 0 0 0).length = 2 ∧ (realIndicesOf 0 0 0).Nodup ∧
      ∀ x ∈ realIndicesOf 0 0 0, x < 4) ∧
    (∀ a b : Fin 4, a ≠ b → ∃ k3 : Fin 4, ∃ k2 : Fin 3, ∃ k1 : Fin 2,
      realIndicesOf k3.val k2.val k1.val = [a.val, b.val]) :=
  winning_slots_spec 0 (by decide) 0 (by decide) 0 (by decide)

/-- C3 (code bug): a successful claim of a winning box answers Prize and
increments the claimant tally by exactly 1 in memory, but the saveStorage
call happens before the increment, so the durable snapshot returned by the
handler still lacks the incremented tally; a successful claim of a losing
box answers Trollbox and leaves the tally unchanged. Evaluated at the
failing input: member A claims winning box_0 of the fresh drop d1. -/
theorem prize_tally_not_persisted :
    (handleCollect 50 "d1" 0 "A" stA stA).1 = ClaimOutcome.Prize ∧
    lookupKey "A" ((handleCollect 50 "d1" 0 "A" stA stA).2.1).userCounts = some 1 ∧
    lookupKey "A" ((handleCollect 50 "d1" 0 "A" stA stA).2.2).userCounts = none ∧
    (handleCollect 50 "d1" 2 "A" stA stA).1 = ClaimOutcome.Trollbox ∧
    ((handleCollect 50 "d1" 2 "A" stA stA).2.1).userCounts = [] ∧
    ((handleCollect 50 "d1" 2 "A" stA stA).2.2).userCounts = [] := by decide

/-- C5 counterexample: in sendGiftDrop the message is sent (renderShown)
strictly before saveStorage runs, so the spec property that no rendering
exists before the drop is durably recorded fails on a concrete run. -/
theorem render_precedes_persist_counterexample :
    ¬ noRenderBeforePersist (sendGiftDrop 0 0 0 0 0 0 "m1" "c1" stEmpty stEmpty).2.2 := by
  decide

/-- C5 amended: sendGiftDrop registers the drop in memory, shows the
rendering, and only then persists — synchronously, before returning, and
including the message reference — so at return the durable snapshot equals
memory, but there is a window where the rendering exists while the drop is
not yet durably recorded (the renderShown event precedes the first persist
event of the trace). -/
theorem persist_after_render_before_return (now j3 j2 j1 t r : Nat) (msgId chId : String)
    (st disk : Storage) :
    (sendGiftDrop now j3 j2 j1 t r msgId chId st disk).2.1 =
      (sendGiftDrop now j3 j2 j1 t r msgId chId st disk).1 ∧
    lookupKey (makeDropId t r) ((sendGiftDrop now j3 j2 j1 t r msgId chId st disk).1).activeDrops =
      some { newDropRecord now j3 j2 j1 with messageId := some msgId, channelId := some chId } ∧
    DropEvent.persist ∈ (sendGiftDrop now j3 j2 j1 t r msgId chId st disk).2.2 ∧
    ¬ noRenderBeforePersist (sendGiftDrop now j3 j2 j1 t r msgId chId st disk).2.2 := by
  refine ⟨rfl, ?_, ?_, ?_⟩
  · simp [sendGiftDrop, lookupKey_setKey_self]
  · simp [sendGiftDrop]
  · intro h
    have := h (DropEvent.renderShown (makeDropId t r)) (by
      simp [sendGiftDrop, List.takeWhile, isPersist])
    simp [isRenderShown] at this

/-- Witness for persist_after_render_before_return: on a concrete run the
persist event is present in the trace and the saved snapshot equals memory. -/
theorem persist_after_render_witness :
    DropEvent.persist ∈ (sendGiftDrop 0 0 0 0 0 0 "m1" "c1" stEmpty stEmpty).2.2 :=
  (persist_after_render_before_return 0 0 0 0 0 0 "m1" "c1" stEmpty stEmpty).2.2.1

/-- C6: every scheduler cycle re-arms exactly once — whether the body
completed or threw — with a delay freshly sampled for that cycle; the
sampled delay is always between 5 and 10 minutes, and every minute value in
that range is reachable by some draw. -/
theorem scheduler_rearm_fresh (body : Except String Unit) (k : Nat) :
    (schedulerCycle body k).countP (fun e => isRearm e) = 1 ∧
    SchedEvent.rearm (nextDropDelayMs k) ∈ schedulerCycle body k ∧
    5 ≤ nextDropDelayMinutes k ∧ nextDropDelayMinutes k ≤ 10 ∧
    nextDropDelayMs k = nextDropDelayMinutes k * 60 * 1000 ∧
    (∀ mnts, 5 ≤ mnts → mnts ≤ 10 → ∃ k', nextDropDelayMinutes k' = mnts) := by
  have hmod : k % 6 < 6 := Nat.mod_lt _ (by norm_num)
  refine ⟨?_, ?_, ?_, ?_, rfl, ?_⟩
  · cases body <;> simp [schedulerCycle, isRearm]
  · cases body <;> simp [schedulerCycle]
  · simp [nextDropDelayMinutes, randInt]
  · simp only [nextDropDelayMinutes, randInt]
    omega
  · intro mnts h5 h10
    refine ⟨mnts - 5, ?_⟩
    have : (mnts - 5) % 6 = mnts - 5 := Nat.mod_eq_of_lt (by omega)
    simp only [nextDropDelayMinutes, randInt]
    omega

/-- Witness for scheduler_rearm_fresh: the cycle with a failed body re-arms,
and 7 minutes is a reachable delay. -/
theorem scheduler_rearm_fresh_witness :
    (schedulerCycle (Except.error "boom") 0).countP (fun e => isRearm e) = 1 ∧
    (∃ k', nextDropDelayMinutes k' = 7) :=
  ⟨(scheduler_rearm_fresh (Except.error "boom") 0).1,
   (scheduler_rearm_fresh (Except.error "boom") 0).2.2.2.2.2 7 (by decide) (by decide)⟩

/-- C7 counterexample: starting from settings with auto drops disabled and
no timer armed, set_drop_channel flips the setting to enabled yet emits no
scheduler-arming action, and neither does toggle_auto. -/
theorem enable_auto_no_arm_counterexample :
    stDisabled.botSettings.map (fun bs => bs.autoDropEnabled) = some false ∧
    (setDropChannelHandler "c1" stDisabled).1.botSettings.map (fun bs => bs.autoDropEnabled) =
      some true ∧
    AdminEvent.armScheduler ∉ (setDropChannelHandler "c1" stDisabled).2 ∧
    (toggleAutoHandler stDisabled).1.botSettings.map (fun bs => bs.autoDropEnabled) =
      some true ∧
    AdminEvent.armScheduler ∉ (toggleAutoHandler stDisabled).2 := by decide

/-- C7 amended: set_drop_channel updates the settings (enables auto drops,
stores the channel) and persists, and toggle_auto flips the flag and
persists, but neither arms the Scheduler; the Scheduler is armed only by
the ready handler at startup, when auto drops are enabled and a channel is
configured — so an enable at runtime takes effect only after a restart. -/
theorem enable_auto_updates_settings_without_arming (chId : String) (st : Storage) :
    (setDropChannelHandler chId st).1.botSettings =
      some { autoDropEnabled := true, dropChannelId := some chId } ∧
    (setDropChannelHandler chId st).1.userCounts = st.userCounts ∧
    (setDropChannelHandler chId st).1.activeDrops = st.activeDrops ∧
    AdminEvent.persist ∈ (setDropChannelHandler chId st).2 ∧
    AdminEvent.armScheduler ∉ (setDropChannelHandler chId st).2 ∧
    (toggleAutoHandler st).1.botSettings.map (fun bs => bs.autoDropEnabled) =
      some (!(st.botSettings.getD
        { autoDropEnabled := false, dropChannelId := none }).autoDropEnabled) ∧
    AdminEvent.persist ∈ (toggleAutoHandler st).2 ∧
    AdminEvent.armScheduler ∉ (toggleAutoHandler st).2 ∧
    (AdminEvent.armScheduler ∈ readyHandlerEvents st ↔
      ∃ bs, st.botSettings = some bs ∧ bs.autoDropEnabled = true ∧
        bs.dropChannelId.isSome = true) := by
  refine ⟨rfl, rfl, rfl, by simp [setDropChannelHandler], by simp [setDropChannelHandler],
    by simp [toggleAutoHandler], by simp [toggleAutoHandler], by simp [toggleAutoHandler], ?_⟩
  cases hbs : st.botSettings with
  | none => simp [readyHandlerEvents, hbs]
  | some bs =>
    cases he : bs.autoDropEnabled <;> cases hc : bs.dropChannelId.isSome <;>
      simp [readyHandlerEvents, hbs, he, hc]

/-- Witness for enable_auto_updates_settings_without_arming at a concrete
state: the handler result carries the enabled settings. -/
theorem enable_auto_updates_settings_witness :
    (setDropChannelHandler "c1" stDisabled).1.botSettings =
      some { autoDropEnabled := true, dropChannelId := some "c1" } :=
  (enable_auto_updates_settings_without_arming "c1" stDisabled).1

/-- C8 (code bug): loadStorage never raises and defaults a missing or null
userCounts and activeDrops, but a durable document carrying an explicit
null botSettings survives the self-assignment on the botSettings line, so
that field is left null rather than defaulted; when botSettings is merely
absent the in-memory default is kept. -/
theorem load_null_botsettings_not_defaulted :
    (loadStorage (initialStorage none) (LoadInput.parsed
      { userCounts := some none, activeDrops := some none,
        botSettings := some none })).userCounts = [] ∧
    (loadStorage (initialStorage none) (LoadInput.parsed
      { userCounts := some none, activeDrops := some none,
        botSettings := some none })).activeDrops = [] ∧
    (loadStorage (initialStorage none) (LoadInput.parsed
      { userCounts := some none, activeDrops := some none,
        botSettings := some none })).botSettings = none ∧
    (loadStorage (initialStorage none) (LoadInput.parsed
      { userCounts := none, activeDrops := none, botSettings := none })).botSettings =
      some { autoDropEnabled := false, dropChannelId := none } ∧
    (loadStorage (initialStorage none) LoadInput.missingFile) = initialStorage none ∧
    (loadStorage (initialStorage none) LoadInput.unreadable) = initialStorage none := by
  decide

/-- C9 as stated: any two distinct drop-creation invocations (indexed i and
j, with their clock reading and random draw) would generate different ids. -/
def allGeneratedIdsDistinct : Prop :=
  ∀ (times draws : Nat → Nat) (i j : Nat), i ≠ j →
    makeDropId (times i) (draws i) ≠ makeDropId (times j) (draws j)

/-- C9 counterexample: two invocations in the same millisecond with the
same random draw (probability 1 in 10000) collide. -/
theorem drop_id_unique_counterexample : ¬ allGeneratedIdsDistinct := fun h =>
  h (fun _ => 171) (fun _ => 42) 0 1 (by decide) rfl

/-- C9 amended: generated ids differ whenever the creating invocations
differ in their millisecond timestamp or in their random draw; only an
exact coincidence of both produces a collision. -/
theorem drop_id_unique_unless_same_time_and_draw (t1 r1 t2 r2 : Nat)
    (h : t1 ≠ t2 ∨ r1 ≠ r2) : makeDropId t1 r1 ≠ makeDropId t2 r2 := by
  intro he
  obtain ⟨ht, hr⟩ := makeDropId_inj t1 r1 t2 r2 he
  cases h with
  | inl h => exact h ht
  | inr h => exact h hr

/-- Witness for drop_id_unique_unless_same_time_and_draw: ids from two
different milliseconds differ. -/
theorem drop_id_unique_witness : makeDropId 1 0 ≠ makeDropId 2 0 :=
  drop_id_unique_unless_same_time_and_draw 1 0 2 0 (Or.inl (by decide))

end SantaBot
